import Mathlib

/-!
Verification of the collaborative-editing synchronizer
(src/src/collaboration/sync_manager.py, src/src/collaboration/conflict_resolver.py)
against its natural-language specification.

The Python code is shallowly embedded: dataclasses become structures, dicts become
association lists over `String` keys, `asyncio.Queue` contents become lists, and
fallible code returns `Except String`.  A pervasive source fact matters throughout:
`MetricsTracker` (src/src/monitoring/metrics.py) defines neither a `record` nor a
`record_error` method, so every `self.metrics.record...` call raises
`AttributeError` - including the calls placed inside `except` handlers, which
therefore replace the caught exception with a new AttributeError.
-/

/-- SyncOperation dataclass (sync_manager.py lines 15-23).  `operation_type` is one of
the strings insert / delete / modify; `content` and `position` are Optional in the
source; the float timestamp is modeled as an `Int` (only ordering is ever used). -/
structure SyncOperation where
  operation_type : String
  path : String
  content : Option String
  position : Option Int
  user_id : String
  timestamp : Int
  version : Int
deriving DecidableEq, Repr

/-- Conflict dataclass (conflict_resolver.py lines 9-15). -/
structure Conflict where
  operations : List SyncOperation
  users : List String
  timestamp : Int
  resolved : Bool := false
  resolution : Option SyncOperation := none
deriving DecidableEq, Repr

/-- Python dict `path -> conflicts` held by the resolver (`self.conflicts`). -/
abbrev ConflictStore := List (String × List Conflict)

/-- Setting `d[k] = v` on a Python dict, modeled on an association list. -/
def alSet {α : Type} (m : List (String × α)) (k : String) (v : α) : List (String × α) :=
  match m with
  | [] => [(k, v)]
  | (k', v') :: rest => if k' = k then (k, v) :: rest else (k', v') :: alSet rest k v

/-- Python `del d[k]`.  A dict holds at most one binding per key, so on the
duplicate-free lists built by `alSet` removing every binding coincides with it. -/
def alErase {α : Type} (m : List (String × α)) (k : String) : List (String × α) :=
  m.filter (fun p => p.1 ≠ k)

/-- The AttributeError raised by every `self.metrics.record_error(...)` call:
MetricsTracker defines no such method, so each `except` handler that calls it
replaces the exception it caught with this one. -/
def msg_no_record_error : String :=
  "AttributeError: MetricsTracker object has no attribute record_error"

/-- The AttributeError raised inside `_operations_conflict` on a modify/modify pair:
`self._modifications_overlap(op1, op2)` is called at conflict_resolver.py line 94 but
no method of that name exists anywhere in the repository. -/
def msg_no_modifications_overlap : String :=
  "AttributeError: ConflictResolver object has no attribute _modifications_overlap"

/-- The TypeError raised by `abs(op1.position - op2.position)` when a position is None. -/
def msg_position_type_error : String :=
  "TypeError: unsupported operand types for -: NoneType and int"

/-- ConflictResolver._operations_conflict (conflict_resolver.py lines 82-104).
Errors model the exceptions the Python body raises. -/
def operations_conflict (op1 op2 : SyncOperation) : Except String Bool :=
  if op1.path ≠ op2.path then .ok false
  else if op1.user_id = op2.user_id then .ok false
  else if op1.operation_type = "modify" ∧ op2.operation_type = "modify" then
    .error msg_no_modifications_overlap
  else if op1.operation_type = "delete" ∨ op2.operation_type = "delete" then .ok true
  else if op1.operation_type = "insert" ∧ op2.operation_type = "insert" then
    match op1.position, op2.position with
    | some p1, some p2 => .ok ((p1 - p2).natAbs < 2)
    | _, _ => .error msg_position_type_error
  else .ok false

/-- The `for recent in recent_operations` loop of check_conflict: collect the recent
operations that conflict with the new one, stopping at the first raised exception. -/
def find_conflicting (operation : SyncOperation) : List SyncOperation → Except String (List SyncOperation)
  | [] => .ok []
  | r :: rest =>
    match operations_conflict operation r with
    | .error e => .error e
    | .ok b =>
      match find_conflicting operation rest with
      | .error e => .error e
      | .ok others => .ok (if b then r :: others else others)

/-- Python `list(set(...))` over user ids.  CPython's set iteration order is
unspecified; we keep the last occurrence of each id, which fixes one order.
No claim depends on the order of `Conflict.users`. -/
def dedup_user_ids : List String → List String
  | [] => []
  | x :: xs => if x ∈ xs then dedup_user_ids xs else x :: dedup_user_ids xs

/-- The body of the `try` block of ConflictResolver.check_conflict
(conflict_resolver.py lines 27-54): pairwise testing, Conflict construction and the
append to `self.conflicts`.  `now` stands for `datetime.now().timestamp()`. -/
def check_conflict_body (now : Int) (store : ConflictStore) (operation : SyncOperation)
    (recent_operations : List SyncOperation) : Except String (Option Conflict × ConflictStore) :=
  match find_conflicting operation recent_operations with
  | .error e => .error e
  | .ok [] => .ok (none, store)
  | .ok conflicts =>
    let conflict : Conflict :=
      { operations := operation :: conflicts
        users := dedup_user_ids ((conflicts ++ [operation]).map (fun op => op.user_id))
        timestamp := now }
    .ok (some conflict,
         alSet store operation.path (((store.lookup operation.path).getD []) ++ [conflict]))

/-- ConflictResolver.check_conflict: the `try` body wrapped by `except Exception`.
The handler first calls `self.metrics.record_error(...)`, which itself raises
AttributeError (no such method), so an exception in the body escapes as that
AttributeError instead of being converted to None; `self.conflicts` is unchanged in
that case because the body raises before any store mutation. -/
def check_conflict (now : Int) (store : ConflictStore) (operation : SyncOperation)
    (recent_operations : List SyncOperation) : Except String (Option Conflict) × ConflictStore :=
  match check_conflict_body now store operation recent_operations with
  | .ok (res, store') => (.ok res, store')
  | .error _ => (.error msg_no_record_error, store)

/-- Concrete modify by user A on path f (recent-window occupant in the scenarios). -/
def opA : SyncOperation :=
  { operation_type := "modify", path := "f", content := some "v1", position := none
    user_id := "A", timestamp := 0, version := -1 }

/-- Concrete modify by user B on path f (the incoming operation in the scenarios). -/
def opB : SyncOperation :=
  { operation_type := "modify", path := "f", content := some "v2", position := none
    user_id := "B", timestamp := 1, version := -1 }

/-- Insert with an unset position, by user A. -/
def opI1 : SyncOperation :=
  { operation_type := "insert", path := "f", content := some "x", position := none
    user_id := "A", timestamp := 0, version := -1 }

/-- Insert with an unset position, by user B. -/
def opI2 : SyncOperation :=
  { operation_type := "insert", path := "f", content := some "y", position := none
    user_id := "B", timestamp := 1, version := -1 }

/-- Order on operations used by `sorted(operations, key=lambda x: x.position)`.
Python compares the raw `position` values; on the runs that reach the sort without
raising, every position is set, and we compare through `Option.getD 0`. -/
def KeyLE (a b : SyncOperation) : Prop := a.position.getD 0 ≤ b.position.getD 0

instance : DecidableRel KeyLE := fun a b => Int.decLe (a.position.getD 0) (b.position.getD 0)

instance : IsTotal SyncOperation KeyLE :=
  ⟨fun a b => Int.le_total (a.position.getD 0) (b.position.getD 0)⟩

instance : IsTrans SyncOperation KeyLE := ⟨fun _ _ _ => Int.le_trans⟩

/-- Order used by `sorted(operations, key=lambda x: x.timestamp)`. -/
def TimeLE (a b : SyncOperation) : Prop := a.timestamp ≤ b.timestamp

instance : DecidableRel TimeLE := fun a b => Int.decLe a.timestamp b.timestamp

/-- Python's `sorted` is a stable sort; so is insertion sort. -/
def sortByPos (l : List SyncOperation) : List SyncOperation :=
  List.insertionSort KeyLE l

/-- Stable sort by timestamp, used by the modify strategy. -/
def sortByTimestamp (l : List SyncOperation) : List SyncOperation :=
  List.insertionSort TimeLE l

/-- ConflictResolver._merge_changes (conflict_resolver.py lines 169-188).  For each
change, `d.compare(current, change)` is filtered to the lines marked unchanged or
added, which is exactly difflib.restore(delta, 2): it reconstructs `change` itself.
So the sequential "merge" returns the last change verbatim (the base when there are
no changes).  A None base or change raises inside the inner `try`, whose own handler
returns None without touching metrics. -/
def merge_changes (base : Option String) (changes : List (Option String)) : Option String :=
  match base, changes.mapM id with
  | some b, some cs => some (cs.getLastD b)
  | _, _ => none

/-- ConflictResolver._resolve_modify_conflict (conflict_resolver.py lines 106-135).
Returns the Python return value (errors model escaped exceptions) paired with the
post-call values of the input operations - this strategy never mutates them.
The synthetic operation's timestamp `datetime.now().timestamp()` is the `now`
argument.  Note `if merged_content:` is falsy both for None and for "". -/
def resolve_modify_conflict (now : Int) (operations : List SyncOperation) :
    Except String (Option SyncOperation) × List SyncOperation :=
  match operations with
  | [] =>
    -- sorted_ops[0] raises IndexError; the handler then raises AttributeError
    (.error msg_no_record_error, operations)
  | op0 :: _ =>
    match sortByTimestamp operations with
    | [] => (.ok none, operations)  -- unreachable: sorting preserves length
    | first :: rest =>
      match merge_changes first.content (rest.map (fun op => op.content)) with
      | some m =>
        if m = "" then (.ok none, operations)
        else
          (.ok (some { operation_type := "modify", path := op0.path, content := some m
                       position := none, user_id := "system", timestamp := now, version := -1 }),
           operations)
      | none => (.ok none, operations)

/-- ConflictResolver._resolve_delete_conflict (conflict_resolver.py lines 137-141).
`next(op for op in operations if op.operation_type == 'delete')` returns the first
delete; with no delete present the StopIteration escapes the coroutine as a
RuntimeError (there is no try/except in this method).  Inputs are never mutated. -/
def resolve_delete_conflict (operations : List SyncOperation) :
    Except String (Option SyncOperation) × List SyncOperation :=
  match operations.find? (fun op => op.operation_type == "delete") with
  | some op => (.ok (some op), operations)
  | none => (.error "RuntimeError: coroutine raised StopIteration", operations)

/-- The in-place position assignment of _resolve_insert_conflict lines 151-152: an
operation whose position is at most the running cursor has its position set to
cursor + 1 (mutating the shared operation object). -/
def shift_op (current_pos : Int) (op : SyncOperation) : SyncOperation :=
  if op.position.getD 0 ≤ current_pos
  then { op with position := some (current_pos + 1) } else op

/-- The `for op in sorted_ops` loop of _resolve_insert_conflict (lines 149-153).
Returns the concatenated content and the post-loop values of the operations, which
ARE mutated in place via `shift_op`.  When an operation's content is None,
`merged_content += op.content` raises TypeError; the shifts already applied remain
(the error payload carries the operations as the loop leaves them). -/
def insert_walk (current_pos : Int) :
    List SyncOperation → Except (List SyncOperation) (String × List SyncOperation)
  | [] => .ok ("", [])
  | op :: rest =>
    match (shift_op current_pos op).content with
    | none => .error (shift_op current_pos op :: rest)
    | some c =>
      match insert_walk ((shift_op current_pos op).position.getD 0 + (c.length : Int)) rest with
      | .ok (m, adj) => .ok (c ++ m, shift_op current_pos op :: adj)
      | .error adj => .error (shift_op current_pos op :: adj)

/-- ConflictResolver._resolve_insert_conflict (conflict_resolver.py lines 143-167).
First component: the Python return value, errors modeling escaped exceptions (every
exception in the body reaches the handler, whose metrics call raises
AttributeError).  Second component: the post-call values of the input operations in
position-sorted order; Python mutates the shared operation objects in place, so the
caller's list keeps its order but holds these mutated values.
The returned synthetic operation takes `position=sorted_ops[0].position` AFTER the
loop has shifted it: the first sorted operation always satisfies
`op.position <= current_pos` (the cursor starts at its own position), so the result
sits at the lowest input position plus one. -/
def resolve_insert_conflict (now : Int) (operations : List SyncOperation) :
    Except String (Option SyncOperation) × List SyncOperation :=
  match operations with
  | [] =>
    -- sorted_ops[0] raises IndexError; the handler then raises AttributeError
    (.error msg_no_record_error, operations)
  | op0 :: rest0 =>
    if !rest0.isEmpty && operations.any (fun op => op.position.isNone) then
      -- sorted() compares a None position and raises TypeError before any mutation
      (.error msg_no_record_error, operations)
    else
      match sortByPos operations with
      | [] => (.ok none, operations)  -- unreachable: sorting preserves length
      | first :: sorted_rest =>
        match first.position with
        | none =>
          -- single operation with unset position: `None <= None` raises TypeError
          (.error msg_no_record_error, operations)
        | some p0 =>
          match insert_walk p0 (first :: sorted_rest) with
          | .error adj => (.error msg_no_record_error, adj)
          | .ok (merged, adj) =>
            match adj with
            | [] => (.ok none, operations)  -- unreachable: the walk preserves length
            | adj0 :: _ =>
              (.ok (some { operation_type := "insert", path := op0.path
                           content := some merged, position := adj0.position
                           user_id := "system", timestamp := now, version := -1 }),
               adj)

/-- ConflictResolver.resolve_conflict (conflict_resolver.py lines 56-80).  Dispatches
on the primary (first) operation's type; a strategy exception reaches this method's
handler, whose metrics call raises AttributeError.  The in-place mutations the
insert strategy performs on the shared operation objects are exposed through that
strategy's second component; the Conflict record returned here keeps the pre-call
operation list, which no claim inspects after resolution. -/
def resolve_conflict (now : Int) (conflict : Conflict) :
    Except String (Option SyncOperation) × Conflict :=
  match conflict.operations with
  | [] =>
    -- conflict.operations[0] raises IndexError; the handler then raises AttributeError
    (.error msg_no_record_error, conflict)
  | [op] => (.ok (some op), conflict)
  | primary :: _ =>
    let strat : Option (Except String (Option SyncOperation) × List SyncOperation) :=
      if primary.operation_type = "modify" then
        some (resolve_modify_conflict now conflict.operations)
      else if primary.operation_type = "delete" then
        some (resolve_delete_conflict conflict.operations)
      else if primary.operation_type = "insert" then
        some (resolve_insert_conflict now conflict.operations)
      else none
    match strat with
    | none => (.ok none, conflict)
    | some (.error _, _) => (.error msg_no_record_error, conflict)
    | some (.ok (some r), _) => (.ok (some r), { conflict with resolved := true, resolution := some r })
    | some (.ok none, _) => (.ok none, conflict)

/-- Concatenation of the operations' contents in list order (None contributing
nothing; on the runs where it matters every content is set). -/
def concatContents : List SyncOperation → String
  | [] => ""
  | op :: rest => op.content.getD "" ++ concatContents rest

/-- Insert of "X" at position 10 by user A. -/
def insX : SyncOperation :=
  { operation_type := "insert", path := "f", content := some "X", position := some 10
    user_id := "A", timestamp := 0, version := -1 }

/-- Insert of "Y" at position 10 by user B. -/
def insY : SyncOperation :=
  { operation_type := "insert", path := "f", content := some "Y", position := some 10
    user_id := "B", timestamp := 1, version := -1 }

/-- Events the SyncManager puts on subscriber queues (presence and lock events; an
applied operation is put on a queue as the SyncOperation itself and is modeled
separately in the apply loop). -/
inductive SMEvent
  | userEv (kind : String) (user_id : String) (timestamp : Int)
  | lockEv (kind : String) (path : String) (user_id : String) (timestamp : Int)
deriving DecidableEq, Repr

/-- The SyncManager state touched by the claims: `self.state` (users, locked_files,
recent_operations), `self.subscribers` (one dict keyed by paths for file
subscriptions and by user ids for presence delivery; queues are numbered), the
resolver's `self.conflicts`, `self.operation_queue`, `self.pending_operations`,
and the conflicts handed to `_broadcast_conflict`. -/
structure ManagerState where
  users : List String
  locked_files : List (String × String)
  subscribers : List (String × List Nat)
  recent_operations : List (String × List SyncOperation)
  conflicts_store : ConflictStore
  operation_queue : List SyncOperation
  pending_operations : List (String × List SyncOperation)
  broadcast_conflicts : List Conflict
deriving DecidableEq, Repr

/-- SyncManager._validate_operation (sync_manager.py lines 210-224).  `path_exists`
stands for the external `Path(operation.path).exists()` check. -/
def validate_operation (path_exists : String → Bool) (st : ManagerState)
    (operation : SyncOperation) : Bool :=
  (["insert", "delete", "modify"].contains operation.operation_type)
  && path_exists operation.path
  && st.users.contains operation.user_id

/-- SyncManager._can_modify_file (sync_manager.py lines 226-230). -/
def can_modify_file (st : ManagerState) (path user_id : String) : Bool :=
  match st.locked_files.lookup path with
  | none => true
  | some holder => holder == user_id

/-- SyncManager._broadcast_lock_event (sync_manager.py lines 250-262): one event per
queue subscribed to the path. -/
def broadcast_lock_event (st : ManagerState) (kind path user_id : String) (now : Int) :
    List (Nat × SMEvent) :=
  match st.subscribers.lookup path with
  | none => []
  | some qs => qs.map (fun q => (q, SMEvent.lockEv kind path user_id now))

/-- SyncManager.acquire_lock (sync_manager.py lines 146-153). -/
def acquire_lock (now : Int) (st : ManagerState) (path user_id : String) :
    Bool × ManagerState × List (Nat × SMEvent) :=
  match st.locked_files.lookup path with
  | some _ => (false, st, [])
  | none =>
    let st1 := { st with locked_files := alSet st.locked_files path user_id }
    (true, st1, broadcast_lock_event st1 "acquired" path user_id now)

/-- SyncManager.release_lock (sync_manager.py lines 155-162). -/
def release_lock (now : Int) (st : ManagerState) (path user_id : String) :
    Bool × ManagerState × List (Nat × SMEvent) :=
  if st.locked_files.lookup path == some user_id then
    let st1 := { st with locked_files := alErase st.locked_files path }
    (true, st1, broadcast_lock_event st1 "released" path user_id now)
  else (false, st, [])

/-- Python `set.add` on the user registry (insertion-ordered model). -/
def set_add (users : List String) (u : String) : List String :=
  if u ∈ users then users else users ++ [u]

/-- The fan-out of _broadcast_user_event (sync_manager.py lines 236-248): for every
connected user that has an entry in `self.subscribers`, one event per queue. -/
def user_event_targets (subs : List (String × List Nat)) (users : List String)
    (ev : SMEvent) : List (Nat × SMEvent) :=
  match users with
  | [] => []
  | u :: rest => ((subs.lookup u).getD []).map (fun q => (q, ev)) ++ user_event_targets subs rest ev

/-- SyncManager.connect_user (sync_manager.py lines 62-70).  There is no
already-connected check anywhere: the user id is (re-)added to the set and the
subscriber entry and pending list keyed by it are unconditionally reset to empty.
The external create_branch_for_user / update_user_activity calls are modeled as
succeeding; the presence broadcast happens after registration. -/
def connect_user (now : Int) (st : ManagerState) (user_id : String) :
    ManagerState × List (Nat × SMEvent) :=
  let st1 := { st with users := set_add st.users user_id
                       subscribers := alSet st.subscribers user_id []
                       pending_operations := alSet st.pending_operations user_id [] }
  (st1, user_event_targets st1.subscribers st1.users (SMEvent.userEv "connected" user_id now))

/-- SyncManager.unsubscribe (sync_manager.py lines 90-93).  `if path in
self.subscribers` guards the missing-path case only; `set.remove(queue)` raises
KeyError when the queue is not in the set. -/
def unsubscribe (st : ManagerState) (path : String) (queue : Nat) :
    Except String ManagerState :=
  match st.subscribers.lookup path with
  | none => .ok st
  | some qs =>
    if queue ∈ qs then
      .ok { st with subscribers := alSet st.subscribers path (qs.erase queue) }
    else .error "KeyError"

/-- The tail of push_operation's try block from `await self.operation_queue.put`
(sync_manager.py lines 118-137): enqueue, append to the user's pending list
(`self.pending_operations[user_id]` raises KeyError for an unregistered user), then
`record_operation` on the database (its outcome is the `record_result` argument),
then `self.metrics.record` - which does not exist, so even the all-success path
raises; every raise is re-raised through the handler whose own metrics call raises
AttributeError first.  All state reached before the raise is kept. -/
def push_enqueue (record_result : Except String Nat) (st : ManagerState)
    (operation : SyncOperation) : Except String Unit × ManagerState :=
  let st1 := { st with operation_queue := st.operation_queue ++ [operation] }
  match st1.pending_operations.lookup operation.user_id with
  | none => (.error msg_no_record_error, st1)
  | some pend =>
    let newPending := alSet st1.pending_operations operation.user_id (pend ++ [operation])
    let st2 := { st1 with pending_operations := newPending }
    match record_result with
    | .error _ => (.error msg_no_record_error, st2)
    | .ok _ => (.error msg_no_record_error, st2)

/-- SyncManager.push_operation (sync_manager.py lines 95-144).  First component: the
call's outcome (`.error` models an escaped exception - by the missing-metrics fact,
always `msg_no_record_error`); second component: the resulting state.  The only
path that returns without raising is the unresolved-conflict path, which returns
early after `_broadcast_conflict` and so never reaches the failing
`self.metrics.record` call. -/
def push_operation (path_exists : String → Bool) (record_result : Except String Nat)
    (now : Int) (st : ManagerState) (operation : SyncOperation) :
    Except String Unit × ManagerState :=
  if !(validate_operation path_exists st operation) then
    -- raise ValueError("Invalid operation") reaches the handler, which raises
    (.error msg_no_record_error, st)
  else if !(can_modify_file st operation.path operation.user_id) then
    -- raise PermissionError(...) reaches the handler, which raises
    (.error msg_no_record_error, st)
  else
    let recent_ops := (st.recent_operations.lookup operation.path).getD []
    match check_conflict now st.conflicts_store operation recent_ops with
    | (.error _, store') => (.error msg_no_record_error, { st with conflicts_store := store' })
    | (.ok conflictFound, store') =>
      let st1 := { st with conflicts_store := store' }
      match conflictFound with
      | some conflict =>
        match resolve_conflict now conflict with
        | (.error _, _) => (.error msg_no_record_error, st1)
        | (.ok (some resolution), _) => push_enqueue record_result st1 resolution
        | (.ok none, c) =>
          (.ok (), { st1 with broadcast_conflicts := st1.broadcast_conflicts ++ [c] })
      | none => push_enqueue record_result st1 operation

/-- The per-path window as mutated by _update_recent_operations
(sync_manager.py lines 264-275): append, then pop the oldest if over the limit. -/
def recent_ops_limit : Nat := 10

/-- The state the apply loop reads and writes. -/
structure ApplyState where
  version : Int
  recent_operations : List (String × List SyncOperation)
  subscribers : List (String × List Nat)
deriving DecidableEq, Repr

/-- SyncManager._update_recent_operations (sync_manager.py lines 264-275). -/
def update_recent_operations (recent : List (String × List SyncOperation))
    (operation : SyncOperation) : List (String × List SyncOperation) :=
  let cur := (recent.lookup operation.path).getD [] ++ [operation]
  let cur := if recent_ops_limit < cur.length then cur.drop 1 else cur
  alSet recent operation.path cur

/-- SyncManager._broadcast_operation (sync_manager.py lines 204-208): the operation
value, as it is at put time, goes to every queue subscribed to its path. -/
def broadcast_operation (st : ApplyState) (operation : SyncOperation) :
    List (Nat × SyncOperation) :=
  match st.subscribers.lookup operation.path with
  | none => []
  | some qs => qs.map (fun q => (q, operation))

/-- The result of one iteration of the _process_operations loop body. -/
structure ApplyStep where
  state : ApplyState
  applied : SyncOperation
  delivered : List (Nat × SyncOperation)
deriving DecidableEq, Repr

/-- One iteration of the while-loop body of SyncManager._process_operations
(sync_manager.py lines 164-191) on a dequeued operation: `_apply_operation` (a no-op
for all three kinds), the window update, the broadcast to the path's subscribers,
and only THEN `self.state.version += 1; operation.version = self.state.version`.
`delivered` holds the operation value as it is put on each queue - before the
version assignment; `applied` holds the operation as the loop leaves it. -/
def process_one (st : ApplyState) (operation : SyncOperation) : ApplyStep :=
  let recent := update_recent_operations st.recent_operations operation
  let delivered := broadcast_operation st operation
  let version := st.version + 1
  { state := { st with version := version, recent_operations := recent }
    applied := { operation with version := version }
    delivered := delivered }

/-- The outcome of running the apply loop on a queue. -/
structure ApplyRun where
  state : ApplyState
  applied : List SyncOperation
  delivered : List (Nat × SyncOperation)
deriving DecidableEq, Repr

/-- SyncManager._process_operations (sync_manager.py lines 164-191) on the queue
contents.  After the first iteration's version assignment, `self.metrics.record`
raises AttributeError; the except clause's own metrics call raises again, so the
exception escapes the while loop and the consumer task dies: at most one queued
operation is ever applied.  The remaining queue elements are never dequeued. -/
def process_operations (st : ApplyState) : List SyncOperation → ApplyRun
  | [] => { state := st, applied := [], delivered := [] }
  | op :: _ =>
    let step := process_one st op
    { state := step.state, applied := [step.applied], delivered := step.delivered }

/-- The version sequence `v+1, v+2, ..., v+n`: what a counter incremented by exactly
one per applied operation assigns. -/
def version_seq (v : Int) : Nat → List Int
  | 0 => []
  | n + 1 => (v + 1) :: version_seq (v + 1) n

/-- A ManagerState with nothing registered. -/
def mgrEmpty : ManagerState :=
  { users := [], locked_files := [], subscribers := [], recent_operations := []
    conflicts_store := [], operation_queue := [], pending_operations := []
    broadcast_conflicts := [] }

/-- Connected user A with an empty pending list, nothing else registered. -/
def pushSt0 : ManagerState :=
  { mgrEmpty with users := ["A"], pending_operations := [("A", [])] }

/-- A modify by user A on path f, as submitted (version still the -1 sentinel). -/
def opPush : SyncOperation :=
  { operation_type := "modify", path := "f", content := some "v1", position := none
    user_id := "A", timestamp := 0, version := -1 }

/-- State for the reconnect scenario: user A is connected, has queue 3 registered
under its presence key and one pending operation. -/
def c8St0 : ManagerState :=
  { mgrEmpty with users := ["A"], subscribers := [("A", [3])]
                  pending_operations := [("A", [opPush])] }

/-- State for the unsubscribe scenario: path p has subscriber queue 1. -/
def c9St0 : ManagerState :=
  { mgrEmpty with subscribers := [("p", [1])] }

/-- Apply-loop state with version 0 and queue 7 subscribed to path f. -/
def applySub0 : ApplyState :=
  { version := 0, recent_operations := [], subscribers := [("f", [7])] }

/-- C1: the code never reports a modify/modify conflict.  On two modifies to the same
path by different users, `_operations_conflict` calls the nonexistent
`_modifications_overlap`, raising AttributeError; check_conflict's handler then
raises its own AttributeError (no `record_error` on MetricsTracker).  No Conflict
containing the two operations is ever constructed or returned. -/
theorem c1_modify_modify_conflict_not_reported :
    check_conflict_body 2 [] opB [opA] = .error msg_no_modifications_overlap
    ∧ check_conflict 2 [] opB [opA] = (.error msg_no_record_error, []) :=
  ⟨rfl, rfl⟩

/-- C10: a detector-internal error does not make check_conflict return None; it
escapes as an AttributeError because the `except` handler's call to
`self.metrics.record_error` raises (MetricsTracker has no such method).  Witnessed
on an insert/insert pair whose positions are unset, where the pairwise test raises
TypeError. -/
theorem c10_internal_error_escapes_check_conflict :
    check_conflict_body 2 [] opI2 [opI1] = .error msg_position_type_error
    ∧ check_conflict 2 [] opI2 [opI1] = (.error msg_no_record_error, []) :=
  ⟨rfl, rfl⟩

/-- Looking up a key right after setting it on an association list. -/
theorem lookup_alSet_self {α : Type} (m : List (String × α)) (k : String) (v : α) :
    (alSet m k v).lookup k = some v := by
  induction m with
  | nil => simp [alSet, List.lookup]
  | cons p rest ih =>
    by_cases h : p.1 = k
    · simp [alSet, h, List.lookup]
    · have h2 : (k == p.1) = false := beq_eq_false_iff_ne.mpr (fun hk => h hk.symm)
      simp [alSet, h, List.lookup, h2, ih]

/-- Looking up a key right after deleting it from an association list. -/
theorem lookup_alErase_self {α : Type} (m : List (String × α)) (k : String) :
    (alErase m k).lookup k = none := by
  induction m with
  | nil => rfl
  | cons p rest ih =>
    by_cases h : p.1 = k
    · simpa [alErase, List.filter_cons, h] using ih
    · have h2 : (k == p.1) = false := beq_eq_false_iff_ne.mpr (fun hk => h hk.symm)
      simpa [alErase, List.filter_cons, h, List.lookup, h2] using ih

/-- C2: the version counter starts at 0 and each applied operation gets exactly the
previous version plus one, so the assigned versions form the gapless, duplicate-free
sequence 1, 2, ... (in the source, the loop in fact dies after its first iteration
because `self.metrics.record` does not exist, so at most one operation is applied;
the discipline holds for every operation that is applied). -/
theorem c2_version_discipline (r : List (String × List SyncOperation))
    (s : List (String × List Nat)) (queue : List SyncOperation)
    (st : ApplyState) (op : SyncOperation) :
    ((process_operations { version := 0, recent_operations := r, subscribers := s }
        queue).applied.map (fun o => o.version)
      = version_seq 0 (process_operations { version := 0, recent_operations := r, subscribers := s }
          queue).applied.length)
    ∧ (process_one st op).applied.version = st.version + 1
    ∧ (process_one st op).state.version = st.version + 1 := by
  refine ⟨?_, rfl, rfl⟩
  cases queue with
  | nil => rfl
  | cons op rest => rfl

/-- C4 counterexample: the apply loop publishes the operation BEFORE assigning the
version.  With queue 7 subscribed to path f and the counter at 0, processing a fresh
operation delivers the operation still carrying the -1 sentinel, while the version
assigned right afterwards is 1 - so the event as published does not carry the
assigned positive version the claim promises. -/
theorem c4_counterexample_broadcast_carries_unset_version :
    (process_one applySub0 opPush).delivered = [(7, opPush)]
    ∧ opPush.version = -1
    ∧ (process_one applySub0 opPush).applied.version = 1 :=
  ⟨rfl, rfl, by decide⟩

/-- C4 amended: in the loop body the broadcast precedes the version assignment:
every value put on a subscriber queue is the operation exactly as dequeued (with its
pre-assignment version), and the version recorded on the operation afterwards is the
previous counter plus one.  (Because the queues alias the mutable operation object,
a subscriber that reads only after the iteration finishes can observe the assigned
version, but the published value itself is pre-assignment.) -/
theorem c4_amended_publish_precedes_assignment (st : ApplyState) (op : SyncOperation) :
    (∀ p ∈ (process_one st op).delivered, p.2 = op)
    ∧ (process_one st op).applied.version = st.version + 1 := by
  constructor
  · intro p hp
    simp only [process_one, broadcast_operation] at hp
    cases hL : st.subscribers.lookup op.path with
    | none => rw [hL] at hp; simp at hp
    | some qs =>
      rw [hL] at hp
      obtain ⟨q, _, rfl⟩ := List.mem_map.mp hp
      rfl
  · rfl

/-- Witness for the C4 amended theorem at the concrete broadcast scenario. -/
theorem c4_amended_witness :
    ((7 : Nat), opPush).2 = opPush
    ∧ (process_one applySub0 opPush).applied.version = applySub0.version + 1 :=
  ⟨(c4_amended_publish_precedes_assignment applySub0 opPush).1 (7, opPush) (by decide),
   (c4_amended_publish_precedes_assignment applySub0 opPush).2⟩

/-- C8 counterexample: connecting an already-connected user is not rejected - there
is no AlreadyConnected failure anywhere - and it does NOT leave the maps unchanged:
user A's pending list (holding one operation) is reset to empty and A's subscriber
entry is reset to the empty set. -/
theorem c8_counterexample_reconnect_not_rejected :
    (connect_user 0 c8St0 "A").1.pending_operations ≠ c8St0.pending_operations
    ∧ (connect_user 0 c8St0 "A").1.users = ["A"]
    ∧ (connect_user 0 c8St0 "A").1.subscribers.lookup "A" = some [] := by
  refine ⟨by decide, rfl, rfl⟩

/-- C8 amended: connect_user never fails: it always (re-)registers the user, and
resets the user's subscriber entry and pending-operations list to empty; for an
already-connected user the registry itself is unchanged (set add), but the reset of
the subscriber set and pending list still happens. -/
theorem c8_amended_connect_always_registers (now : Int) (st : ManagerState) (u : String) :
    (u ∈ (connect_user now st u).1.users)
    ∧ ((connect_user now st u).1.subscribers.lookup u = some [])
    ∧ ((connect_user now st u).1.pending_operations.lookup u = some [])
    ∧ (u ∈ st.users → (connect_user now st u).1.users = st.users) := by
  refine ⟨?_, lookup_alSet_self st.subscribers u [], lookup_alSet_self st.pending_operations u [], ?_⟩
  · by_cases h : u ∈ st.users <;> simp [connect_user, set_add, h]
  · intro h; simp [connect_user, set_add, h]

/-- Witness for the C8 amended theorem at the reconnect scenario. -/
theorem c8_amended_witness :
    ("A" ∈ (connect_user 0 c8St0 "A").1.users)
    ∧ (connect_user 0 c8St0 "A").1.users = c8St0.users :=
  ⟨(c8_amended_connect_always_registers 0 c8St0 "A").1,
   (c8_amended_connect_always_registers 0 c8St0 "A").2.2.2 (by decide)⟩

/-- C9 counterexample: removing a channel that is not in the path's subscriber set
raises KeyError (Python `set.remove`) instead of being a no-op: path p has only
queue 1 registered, and unsubscribing queue 2 raises. -/
theorem c9_counterexample_unsubscribe_raises :
    unsubscribe c9St0 "p" 2 = .error "KeyError" := rfl

/-- C9 amended: unsubscribe removes the channel when it is present; it is a no-op
when the path has no subscriber set at all; but when the path has a subscriber set
that does not contain the channel, `set.remove` raises KeyError. -/
theorem c9_amended_unsubscribe_cases (st : ManagerState) (path : String) (q : Nat) :
    (st.subscribers.lookup path = none → unsubscribe st path q = .ok st)
    ∧ (∀ qs, st.subscribers.lookup path = some qs → q ∈ qs →
        unsubscribe st path q =
          .ok { st with subscribers := alSet st.subscribers path (qs.erase q) })
    ∧ (∀ qs, st.subscribers.lookup path = some qs → q ∉ qs →
        unsubscribe st path q = .error "KeyError") := by
  refine ⟨fun h => by simp [unsubscribe, h], fun qs h hq => by simp [unsubscribe, h, hq],
         fun qs h hq => by simp [unsubscribe, h, hq]⟩

/-- Witness for the C9 amended theorem: missing path is a no-op, present channel is
removed. -/
theorem c9_amended_witness :
    (unsubscribe c9St0 "q" 1 = .ok c9St0)
    ∧ (unsubscribe c9St0 "p" 1 =
        .ok { c9St0 with subscribers := alSet c9St0.subscribers "p" (List.erase [1] 1) }) :=
  ⟨(c9_amended_unsubscribe_cases c9St0 "q" 1).1 (by decide),
   (c9_amended_unsubscribe_cases c9St0 "p" 1).2.1 [1] (by decide) (by decide)⟩

/-- C5: lock-table semantics.  AcquireLock succeeds exactly when the path has no
holder (so a second acquire, even by the holder, fails), records the caller as
holder on success, and changes nothing on failure; ReleaseLock succeeds exactly when
the caller is the current holder, removes the entry on success, and changes nothing
on failure; after a successful release any user's acquire succeeds; the table maps
each path to at most one holder. -/
theorem c5_lock_table_semantics (now : Int) (st : ManagerState) (path u v : String) :
    ((acquire_lock now st path u).1 = true ↔ st.locked_files.lookup path = none)
    ∧ ((acquire_lock now st path u).1 = true →
        (acquire_lock now st path u).2.1.locked_files.lookup path = some u)
    ∧ ((acquire_lock now st path u).1 = false → (acquire_lock now st path u).2.1 = st)
    ∧ ((release_lock now st path u).1 = true ↔ st.locked_files.lookup path = some u)
    ∧ ((release_lock now st path u).1 = false → (release_lock now st path u).2.1 = st)
    ∧ ((release_lock now st path u).1 = true →
        (release_lock now st path u).2.1.locked_files.lookup path = none)
    ∧ ((release_lock now st path u).1 = true →
        (acquire_lock now (release_lock now st path u).2.1 path v).1 = true)
    ∧ (∀ u1 u2, st.locked_files.lookup path = some u1 →
        st.locked_files.lookup path = some u2 → u1 = u2) := by
  cases hL : st.locked_files.lookup path with
  | none =>
    refine ⟨by simp [acquire_lock, hL], ?_, ?_, by simp [release_lock, hL], ?_, ?_, ?_, ?_⟩
    · intro _; simp [acquire_lock, hL, lookup_alSet_self]
    · intro habs; simp [acquire_lock, hL] at habs
    · intro _; simp [release_lock, hL]
    · intro habs; simp [release_lock, hL] at habs
    · intro habs; simp [release_lock, hL] at habs
    · intro u1 u2 h1; exact absurd h1 (by simp)
  | some w =>
    by_cases hw : w = u
    · subst hw
      refine ⟨by simp [acquire_lock, hL], ?_, ?_, by simp [release_lock, hL], ?_, ?_, ?_, ?_⟩
      · intro habs; simp [acquire_lock, hL] at habs
      · intro _; simp [acquire_lock, hL]
      · intro habs; simp [release_lock, hL] at habs
      · intro _; simp [release_lock, hL, lookup_alErase_self]
      · intro _; simp [release_lock, acquire_lock, hL, lookup_alErase_self]
      · intro u1 u2 h1 h2
        injection h1 with e1
        injection h2 with e2
        exact e1.symm.trans e2
    · have hne : (st.locked_files.lookup path == some u) = false := by
        rw [hL]; exact beq_eq_false_iff_ne.mpr (by simpa using hw)
      refine ⟨by simp [acquire_lock, hL], ?_, ?_, ?_, ?_, ?_, ?_, ?_⟩
      · intro habs; simp [acquire_lock, hL] at habs
      · intro _; simp [acquire_lock, hL]
      · constructor
        · intro habs; simp [release_lock, hne] at habs
        · intro heq; exact absurd (Option.some_injective _ heq) hw
      · intro _; simp [release_lock, hne]
      · intro habs; simp [release_lock, hne] at habs
      · intro habs; simp [release_lock, hne] at habs
      · intro u1 u2 h1 h2
        injection h1 with e1
        injection h2 with e2
        exact e1.symm.trans e2

/-- Witness for the C5 theorem: on the empty table, acquiring succeeds and records
the holder, and a release by a non-holder fails leaving the table unchanged. -/
theorem c5_witness :
    (acquire_lock 0 mgrEmpty "p" "A").1 = true
    ∧ (acquire_lock 0 mgrEmpty "p" "A").2.1.locked_files.lookup "p" = some "A"
    ∧ (release_lock 0 mgrEmpty "p" "A").2.1 = mgrEmpty :=
  ⟨(c5_lock_table_semantics 0 mgrEmpty "p" "A" "B").1.mpr (by decide),
   (c5_lock_table_semantics 0 mgrEmpty "p" "A" "B").2.1
     ((c5_lock_table_semantics 0 mgrEmpty "p" "A" "B").1.mpr (by decide)),
   (c5_lock_table_semantics 0 mgrEmpty "p" "A" "B").2.2.2.2.1 (by decide)⟩

/-- C3 counterexample: user A is connected with an empty pending list; a valid,
conflict-free modify is pushed while record_operation fails.  The push raises (the
metrics AttributeError, not the persistence error), yet the operation HAS been
enqueued for apply and appended to A's pending list - the claim's "not in the apply
queue and not in the user's pending list" is false. -/
theorem c3_counterexample_enqueued_despite_record_failure :
    (push_operation (fun _ => true) (.error "db failure") 0 pushSt0 opPush).1
      = .error msg_no_record_error
    ∧ (push_operation (fun _ => true) (.error "db failure") 0 pushSt0 opPush).2.operation_queue
      = [opPush]
    ∧ (push_operation (fun _ => true) (.error "db failure") 0 pushSt0
        opPush).2.pending_operations.lookup "A" = some [opPush] :=
  ⟨rfl, rfl, rfl⟩

/-- C3 amended: when the storage record fails during a valid, unlocked,
conflict-free push, the push does raise an error to its caller (the handler's
AttributeError, which replaces the persistence error) - but only AFTER the operation
has been enqueued for apply and appended to the submitting user's pending list.  The
failure does not abort the push before enqueue. -/
theorem c3_amended_enqueue_precedes_record (path_exists : String → Bool) (now : Int)
    (st : ManagerState) (operation : SyncOperation) (e : String) (pend : List SyncOperation)
    (hval : validate_operation path_exists st operation = true)
    (hlock : can_modify_file st operation.path operation.user_id = true)
    (hnoc : find_conflicting operation ((st.recent_operations.lookup operation.path).getD [])
              = .ok [])
    (hpend : st.pending_operations.lookup operation.user_id = some pend) :
    (push_operation path_exists (.error e) now st operation).1 = .error msg_no_record_error
    ∧ operation ∈ (push_operation path_exists (.error e) now st operation).2.operation_queue
    ∧ (push_operation path_exists (.error e) now st operation).2.pending_operations.lookup
        operation.user_id = some (pend ++ [operation]) := by
  refine ⟨?_, ?_, ?_⟩ <;>
    simp [push_operation, hval, hlock, check_conflict, check_conflict_body, hnoc,
          push_enqueue, hpend, lookup_alSet_self]

/-- Witness for the C3 amended theorem at the concrete db-failure scenario. -/
theorem c3_amended_witness :
    opPush ∈ (push_operation (fun _ => true) (.error "db failure") 0 pushSt0
      opPush).2.operation_queue :=
  (c3_amended_enqueue_precedes_record (fun _ => true) 0 pushSt0 opPush "db failure" []
    rfl rfl rfl rfl).2.1

/-- shift_op only ever writes the position field. -/
theorem shift_op_content (cur : Int) (op : SyncOperation) :
    (shift_op cur op).content = op.content := by
  unfold shift_op; split <;> rfl

/-- shift_op leaves the author untouched. -/
theorem shift_op_user_id (cur : Int) (op : SyncOperation) :
    (shift_op cur op).user_id = op.user_id := by
  unfold shift_op; split <;> rfl

/-- On operations whose positions and contents are all set, the walk never raises:
it returns the concatenation of the contents in list order together with the
shifted operations, whose authors are unchanged. -/
theorem insert_walk_ok_of_defined (l : List SyncOperation)
    (h : ∀ op ∈ l, op.position.isSome ∧ op.content.isSome) (cur : Int) :
    ∃ adj, insert_walk cur l = .ok (concatContents l, adj)
      ∧ adj.map (fun op => op.user_id) = l.map (fun op => op.user_id) := by
  induction l generalizing cur with
  | nil => exact ⟨[], rfl, rfl⟩
  | cons op rest ih =>
    obtain ⟨-, hc⟩ := h op (List.mem_cons_self op rest)
    obtain ⟨c, hcEq⟩ := Option.isSome_iff_exists.mp hc
    have hcont : (shift_op cur op).content = some c := by rw [shift_op_content, hcEq]
    obtain ⟨adj, hwalk, hmap⟩ :=
      ih (fun o ho => h o (List.mem_cons_of_mem op ho))
        ((shift_op cur op).position.getD 0 + (c.length : Int))
    refine ⟨shift_op cur op :: adj, ?_, ?_⟩
    · simp only [insert_walk, hcont, hwalk, concatContents, hcEq, Option.getD_some]
    · simp [shift_op_user_id, hmap]

/-- A successful walk step, for reassembling the full walk from its tail. -/
theorem insert_walk_cons_ok (cur : Int) (op : SyncOperation) (rest : List SyncOperation)
    (c : String) (hcont : (shift_op cur op).content = some c)
    (m : String) (adj : List SyncOperation)
    (hrest : insert_walk ((shift_op cur op).position.getD 0 + (c.length : Int)) rest
      = .ok (m, adj)) :
    insert_walk cur (op :: rest) = .ok (c ++ m, shift_op cur op :: adj) := by
  simp only [insert_walk, hcont, hrest]

/-- A successful walk does not change the authors of the operations it shifts. -/
theorem insert_walk_ok_map_uid (l : List SyncOperation) (cur : Int) (m : String)
    (adj : List SyncOperation) (h : insert_walk cur l = .ok (m, adj)) :
    adj.map (fun op => op.user_id) = l.map (fun op => op.user_id) := by
  induction l generalizing cur m adj with
  | nil =>
    simp only [insert_walk, Except.ok.injEq, Prod.mk.injEq] at h
    rw [← h.2]
  | cons op rest ih =>
    unfold insert_walk at h
    split at h
    · exact absurd h (by simp)
    · rename_i c hc
      split at h
      · rename_i m2 adj2 hw
        simp only [Except.ok.injEq, Prod.mk.injEq] at h
        rw [← h.2]
        simp [shift_op_user_id, ih _ _ _ hw]
      · exact absurd h (by simp)

/-- C6 counterexample: resolving the two inserts at position 10 yields the ordered
concatenation "XY" with userID system, but its position is 11 - the first input's
ADJUSTED position - not the first (lowest, unadjusted) input position 10 that the
claim promises: the loop always shifts the first sorted operation, because the
cursor starts at that operation's own position. -/
theorem c6_counterexample_position_shifted :
    (resolve_insert_conflict 5 [insX, insY]).1 =
      .ok (some { operation_type := "insert", path := "f", content := some "XY"
                  position := some 11, user_id := "system", timestamp := 5, version := -1 })
    ∧ insX.position = some 10 ∧ insY.position = some 10 ∧ ((11 : Int) ≠ 10) :=
  ⟨rfl, rfl, rfl, by decide⟩

/-- C6 amended: for a nonempty all-insert conflict with positions and contents set,
the insert strategy returns a synthetic insert with userID "system" whose content is
the concatenation of the inputs' contents in ascending-position order (no character
lost) and whose position is the first (lowest) input position PLUS ONE - the
adjusted position of the first sorted input, which the loop always shifts. -/
theorem c6_amended_insert_resolution (now : Int) (ops : List SyncOperation)
    (op0 first : SyncOperation) (rest srest : List SyncOperation)
    (hops : ops = op0 :: rest) (hsort : sortByPos ops = first :: srest)
    (hall : ∀ op ∈ ops,
      op.operation_type = "insert" ∧ op.position.isSome ∧ op.content.isSome) :
    (∃ adj, resolve_insert_conflict now ops =
        (.ok (some { operation_type := "insert", path := op0.path
                     content := some (concatContents (first :: srest))
                     position := some (first.position.getD 0 + 1)
                     user_id := "system", timestamp := now, version := -1 }), adj))
    ∧ (∀ op ∈ ops, first.position.getD 0 ≤ op.position.getD 0) := by
  have hmemSort : ∀ op : SyncOperation, op ∈ sortByPos ops ↔ op ∈ ops := by
    intro op
    unfold sortByPos
    exact List.mem_insertionSort KeyLE
  have hallSort : ∀ op ∈ first :: srest,
      op.operation_type = "insert" ∧ op.position.isSome ∧ op.content.isSome := by
    intro op hop
    exact hall op ((hmemSort op).mp (by rw [hsort]; exact hop))
  have hany : ops.any (fun op => op.position.isNone) = false := by
    rw [List.any_eq_false]
    intro x hx
    obtain ⟨px, hpx⟩ := Option.isSome_iff_exists.mp (hall x hx).2.1
    simp [hpx]
  obtain ⟨-, hfirstPos, hfirstCont⟩ := hallSort first (List.mem_cons_self first srest)
  obtain ⟨p0, hp0⟩ := Option.isSome_iff_exists.mp hfirstPos
  obtain ⟨c0, hc0⟩ := Option.isSome_iff_exists.mp hfirstCont
  have hshift : shift_op p0 first = { first with position := some (p0 + 1) } := by
    unfold shift_op
    rw [hp0]
    simp
  have hshiftCont : (shift_op p0 first).content = some c0 := by
    rw [shift_op_content, hc0]
  obtain ⟨adj, hwalkTail, -⟩ :=
    insert_walk_ok_of_defined srest
      (fun o ho => (hallSort o (List.mem_cons_of_mem first ho)).2)
      ((shift_op p0 first).position.getD 0 + ((c0.length : Nat) : Int))
  have hwalk : insert_walk p0 (first :: srest)
      = .ok (c0 ++ concatContents srest, shift_op p0 first :: adj) :=
    insert_walk_cons_ok p0 first srest c0 hshiftCont _ adj hwalkTail
  constructor
  · refine ⟨shift_op p0 first :: adj, ?_⟩
    subst hops
    unfold resolve_insert_conflict
    have hcc : concatContents (first :: srest) = c0 ++ concatContents srest := by
      simp [concatContents, hc0]
    simp only [hany, Bool.and_false, Bool.false_eq_true, if_false, hsort, hp0, hwalk,
               hshift, hcc, Option.getD_some]
  · intro op hop
    have hsorted : List.Sorted KeyLE (first :: srest) := by
      rw [← hsort]
      simpa [sortByPos] using List.sorted_insertionSort KeyLE ops
    have hmem : op ∈ first :: srest := by
      rw [← hsort]; exact (hmemSort op).mpr hop
    rcases List.mem_cons.mp hmem with h | h
    · subst h; exact le_refl _
    · exact List.rel_of_sorted_cons hsorted op h

/-- Witness for the C6 amended theorem on the two concrete inserts at position 10. -/
theorem c6_amended_witness :
    ∃ adj, resolve_insert_conflict 7 [insX, insY] =
      (.ok (some { operation_type := "insert", path := insX.path
                   content := some (concatContents [insX, insY])
                   position := some (insX.position.getD 0 + 1)
                   user_id := "system", timestamp := 7, version := -1 }), adj) :=
  (c6_amended_insert_resolution 7 [insX, insY] insX insX [insY] [insY] rfl (by decide)
    (by decide)).1

/-- The modify strategy leaves its input operations untouched on every path. -/
theorem resolve_modify_snd (now : Int) (ops : List SyncOperation) :
    (resolve_modify_conflict now ops).2 = ops := by
  unfold resolve_modify_conflict
  repeat' split
  all_goals rfl

/-- The delete strategy leaves its input operations untouched on every path. -/
theorem resolve_delete_snd (ops : List SyncOperation) :
    (resolve_delete_conflict ops).2 = ops := by
  unfold resolve_delete_conflict
  cases ops.find? (fun op => op.operation_type == "delete") <;> rfl

/-- Any operation the modify strategy returns successfully is the synthetic one
authored by "system". -/
theorem resolve_modify_ok_system (now : Int) (ops : List SyncOperation)
    (r : SyncOperation) (ops2 : List SyncOperation)
    (h : resolve_modify_conflict now ops = (.ok (some r), ops2)) :
    r.user_id = "system" := by
  unfold resolve_modify_conflict at h
  split at h
  · simp at h
  · split at h
    · simp at h
    · split at h
      · split at h
        · simp at h
        · simp only [Prod.mk.injEq, Except.ok.injEq, Option.some.injEq] at h
          rw [← h.1]
      · simp at h

/-- Any operation the insert strategy returns successfully is the synthetic one
authored by "system", and the post-call operations are the sorted inputs as the
walk shifted them - same authors as the sorted inputs. -/
theorem resolve_insert_ok_inversion (now : Int) (ops : List SyncOperation)
    (r : SyncOperation) (ops2 : List SyncOperation)
    (h : resolve_insert_conflict now ops = (.ok (some r), ops2)) :
    r.user_id = "system"
    ∧ ops2.map (fun op => op.user_id) = (sortByPos ops).map (fun op => op.user_id) := by
  unfold resolve_insert_conflict at h
  split at h
  · simp at h
  · split at h
    · simp at h
    · split at h
      · simp at h
      · split at h
        · simp at h
        · rename_i p0 hp
          split at h
          · simp at h
          · rename_i merged adj hw
            split at h
            · simp at h
            · rename_i first srest hs x2 x1 x0 adj0 tail
              simp only [Prod.mk.injEq, Except.ok.injEq, Option.some.injEq] at h
              refine ⟨by rw [← h.1], ?_⟩
              rw [← h.2, hs]
              exact insert_walk_ok_map_uid (first :: srest) p0 merged (adj0 :: tail) hw

/-- C7 counterexample: the insert strategy mutates its inputs.  After resolving the
two inserts at position 10, the input operations carry positions 11 and 13 - not
their original 10 and 10: the strategy shifted the shared operation objects in
place, so the inputs are not unchanged after resolution. -/
theorem c7_counterexample_insert_mutates_inputs :
    (resolve_insert_conflict 5 [insX, insY]).2.map (fun op => op.position)
      = [some 11, some 13]
    ∧ [insX, insY].map (fun op => op.position) = [some 10, some 10] :=
  ⟨rfl, rfl⟩

/-- C7 amended: the modify and delete strategies never mutate their input
operations, and the operations the modify and insert strategies synthesize are new
system-authored values distinct from every input (and, for insert, also from every
post-call input value); but the insert strategy DOES mutate its inputs, shifting
their positions in place (see the counterexample). -/
theorem c7_amended_strategies_frame (now : Int) (ops : List SyncOperation)
    (hsys : ∀ op ∈ ops, op.user_id ≠ "system") :
    ((resolve_modify_conflict now ops).2 = ops)
    ∧ ((resolve_delete_conflict ops).2 = ops)
    ∧ (∀ r ops2, resolve_modify_conflict now ops = (.ok (some r), ops2) →
        r.user_id = "system" ∧ r ∉ ops)
    ∧ (∀ r ops2, resolve_insert_conflict now ops = (.ok (some r), ops2) →
        r.user_id = "system" ∧ r ∉ ops ∧ r ∉ ops2) := by
  refine ⟨resolve_modify_snd now ops, resolve_delete_snd ops, ?_, ?_⟩
  · intro r ops2 h
    have hu := resolve_modify_ok_system now ops r ops2 h
    exact ⟨hu, fun hmem => hsys r hmem hu⟩
  · intro r ops2 h
    obtain ⟨hu, hmap⟩ := resolve_insert_ok_inversion now ops r ops2 h
    refine ⟨hu, fun hmem => hsys r hmem hu, fun hmem => ?_⟩
    have hin : r.user_id ∈ ops2.map (fun op => op.user_id) :=
      List.mem_map_of_mem (fun op => op.user_id) hmem
    rw [hmap] at hin
    have hperm : List.Perm (sortByPos ops) ops := by
      unfold sortByPos
      exact List.perm_insertionSort KeyLE ops
    have hin2 : r.user_id ∈ ops.map (fun op => op.user_id) :=
      ((hperm.map (fun op => op.user_id)).mem_iff).mp hin
    obtain ⟨op, hop, hopEq⟩ := List.mem_map.mp hin2
    exact hsys op hop (hopEq.trans hu)

/-- Witness for the C7 amended theorem on the concrete two-insert conflict. -/
theorem c7_amended_witness :
    (resolve_modify_conflict 0 [insX, insY]).2 = [insX, insY] :=
  (c7_amended_strategies_frame 0 [insX, insY] (by decide)).1
